import Mathlib

/-!
Shallow embedding of the SVR client source library (`src/lib/source.c`) and
the server reencoder interface (`include/svrd/reencoder.h`).

The library talks to a remote server through a message bus
(`SVR_Comm_sendMessage` / `SVR_Comm_parseResponse`), parses option strings
(`SVR_parseOptionString`), looks up encodings (`SVR_Encoding_getByName`) and
drives codec engines (`SVR_Encoder_*`).  Those collaborators are external to
the repository; they are modelled as an explicit environment `Env` of
uninterpreted functions, so every theorem quantifies over all behaviours of
the collaborators.  Each library operation is embedded as a pure function
returning its C return value, the updated source state, and the trace of
messages handed to the bus (in order, each with its `expect_response` flag).
-/

/-- Error codes of the SVR protocol.  The concrete integer values of the
error enum live in a header outside this repository; the spec fixes only
`0 = Success` and that the taxonomy is a closed set of distinct codes, so the
remaining codes are assigned distinct values in taxonomy order. -/
def SVR_SUCCESS : Int := 0

/-- Error code: malformed option string. -/
def SVR_PARSEERROR : Int := 1

/-- Error code: encoding name not registered. -/
def SVR_NOSUCHENCODING : Int := 2

/-- Error code: unknown source. -/
def SVR_NOSUCHSOURCE : Int := 3

/-- Error code: operation invalid in the current state. -/
def SVR_INVALIDSTATE : Int := 6

/-- Error code: invalid argument (for example a frame of the wrong shape). -/
def SVR_INVALIDARGUMENT : Int := 7

/-- IplImage fields used by `source.c`: width, height, depth and channel
count of an uncompressed frame (the container library is external, only
these four fields are read). -/
structure IplImage where
  width : Int
  height : Int
  depth : Int
  nChannels : Int
deriving DecidableEq

/-- SVR_FrameProperties: the thin frame-shape value type
{width, height, depth, channels}. -/
structure SVR_FrameProperties where
  width : Int
  height : Int
  depth : Int
  channels : Int
deriving DecidableEq

/-- Dictionary produced by the option-string parser: an association list
from keys to values. -/
def Dict : Type := List (String × String)

instance : DecidableEq Dict := by
  unfold Dict
  infer_instance

/-- Dictionary_get: look a key up in a parsed option dictionary, `none`
standing for the C NULL result on a missing key. -/
def Dictionary_get (d : Dict) (key : String) : Option String :=
  List.lookup key d

/-- SVR_Encoding: a registered named codec.  Only its identity matters to
the client library, which stores the pointer returned by the registry. -/
structure SVR_Encoding where
  name : String
deriving DecidableEq

/-- SVR_Encoder: a streaming encode engine.  The engine itself is external
(codec library); the client library only observes its pending output bytes
through `dataReady`/`readData`, so the model keeps an abstract internal
state and the queue of encoded bytes not yet read out. -/
structure SVR_Encoder where
  state : Nat
  pending : List Nat
deriving DecidableEq

/-- SVR_Encoder_dataReady: number of encoded bytes ready to be read. -/
def SVR_Encoder_dataReady (e : SVR_Encoder) : Nat :=
  e.pending.length

/-- One message handed to `SVR_Comm_sendMessage`: its text components, its
payload bytes, and whether a response was requested. -/
structure SentMsg where
  components : List String
  payload : List Nat
  expect_response : Bool
deriving DecidableEq

/-- SVR_Source: the client-side source object of `source.c`.  The payload
buffer itself is a scratch area whose contents never outlive a send, so only
its size is kept. -/
structure SVR_Source where
  name : String
  encoding : Option SVR_Encoding
  encoding_options : Option Dict
  encoder : Option SVR_Encoder
  frame_properties : Option SVR_FrameProperties
  payload_buffer_size : Nat
deriving DecidableEq

/-- Environment of external collaborators: the option-string parser, the
encoding registry, the request/response bus (`SVR_Comm_sendMessage` with
`expect_response = true` followed by `SVR_Comm_parseResponse`, collapsed
into the response code for the request's components), the raw response
components (used only by `Source.getSourcesList`), and the codec engine
constructors.  `getEncodingByName` receives `none` when `Dictionary_get`
returned NULL for the `%name` key. -/
structure Env where
  parseOptionString : String → Option Dict
  getEncodingByName : Option String → Option SVR_Encoding
  request : List String → Int
  respComponents : List String → List String
  newEncoder : SVR_Encoding → Option Dict → SVR_FrameProperties → SVR_Encoder
  encodeFrame : SVR_Encoder → IplImage → SVR_Encoder

/-- Decimal digit characters, for the model of `sprintf` with `%d`. -/
def digitChar : Nat → Char
  | 0 => '0'
  | 1 => '1'
  | 2 => '2'
  | 3 => '3'
  | 4 => '4'
  | 5 => '5'
  | 6 => '6'
  | 7 => '7'
  | 8 => '8'
  | _ => '9'

/-- Decimal digits of a natural number, most significant first (the digit
sequence `%d` prints for a non-negative value). -/
def natDecDigits (m : Nat) : List Char :=
  if h : m < 10 then [digitChar m]
  else natDecDigits (m / 10) ++ [digitChar (m % 10)]
decreasing_by
  exact Nat.div_lt_self (by omega) (by omega)

/-- Rendering of a C `int` by `sprintf` with `%d`: an optional minus sign
followed by the decimal digits of the absolute value. -/
def intDec (n : Int) : String :=
  if n < 0 then String.mk ('-' :: natDecDigits n.natAbs)
  else String.mk (natDecDigits n.natAbs)

/-- Third component built by `SVR_Source_setFrameProperties`, the model of
`SVR_Arena_sprintf` with format string `%d,%d,%d,%d` applied to width,
height, depth and channels. -/
def formatFrameProperties (fp : SVR_FrameProperties) : String :=
  intDec fp.width ++ "," ++ intDec fp.height ++ "," ++
    intDec fp.depth ++ "," ++ intDec fp.channels

/-- SVR_Source_setEncoding (`source.c:112`): parse the option string, look
the encoding up by its `%name` key, announce the change to the server, and
on a successful response install the parsed encoding and options. -/
def SVR_Source_setEncoding (env : Env) (source : SVR_Source) (desc : String) :
    Int × SVR_Source × List SentMsg :=
  match env.parseOptionString desc with
  | none => (SVR_PARSEERROR, source, [])
  | some options =>
    match env.getEncodingByName (Dictionary_get options "%name") with
    | none => (SVR_NOSUCHENCODING, source, [])
    | some enc =>
      let comps := ["Source.setEncoding", source.name, desc]
      let rc := env.request comps
      if rc = SVR_SUCCESS then
        (rc, { source with encoding := some enc, encoding_options := some options },
         [⟨comps, [], true⟩])
      else
        (rc, source, [⟨comps, [], true⟩])

/-- Components of the `Source.setFrameProperties` request message. -/
def setFPComponents (name : String) (fp : SVR_FrameProperties) : List String :=
  ["Source.setFrameProperties", name, formatFrameProperties fp]

/-- SVR_Source_setFrameProperties (`source.c:168`): announce the properties
to the server and on a successful response install a clone of them. -/
def SVR_Source_setFrameProperties (env : Env) (source : SVR_Source)
    (fp : SVR_FrameProperties) : Int × SVR_Source × List SentMsg :=
  let comps := setFPComponents source.name fp
  let rc := env.request comps
  if rc = SVR_SUCCESS then
    (rc, { source with frame_properties := some fp }, [⟨comps, [], true⟩])
  else
    (rc, source, [⟨comps, [], true⟩])

/-- Chunks read out of the encoder by the drain loop of
`SVR_Source_sendFrame`: while `dataReady > 0`, `readData` moves up to `cap`
bytes into the payload buffer and the chunk is sent.  The C loop cannot
terminate when `cap = 0`; that case never arises (`payload_buffer_size` is
fixed at 4096 by the constructor) and the model returns `[]` there purely
for termination. -/
def drainChunks (cap : Nat) (pending : List Nat) : List (List Nat) :=
  if pending.isEmpty ∨ cap = 0 then []
  else pending.take cap :: drainChunks cap (pending.drop cap)
termination_by pending.length
decreasing_by
  rename_i h
  simp [List.isEmpty_iff, not_or] at h
  have hne : pending.length ≠ 0 := by
    simpa [List.length_eq_zero] using h.1
  simp only [List.length_drop]
  omega

/-- Encoder used by `SVR_Source_sendFrame`: the installed one, or a fresh
one constructed from the source's encoding, options and properties when the
`encoder` field is NULL (`source.c:234`). -/
def encoderInUse (env : Env) (source : SVR_Source) (enc : SVR_Encoding)
    (props : SVR_FrameProperties) : SVR_Encoder :=
  match source.encoder with
  | some e => e
  | none => env.newEncoder enc source.encoding_options props

/-- Steps of `SVR_Source_sendFrame` once the encoding and the frame
properties are known to be installed (`source.c:234` onward): construct the
encoder lazily if absent, reject a frame whose shape differs from the
installed properties, otherwise push the frame into the encoder and drain
it into `Data` messages that expect no response. -/
def sendFrameConfigured (env : Env) (source : SVR_Source) (enc : SVR_Encoding)
    (props : SVR_FrameProperties) (frame : IplImage) :
    Int × SVR_Source × List SentMsg :=
  if frame.width ≠ props.width ∨ frame.height ≠ props.height ∨
      frame.depth ≠ props.depth ∨ frame.nChannels ≠ props.channels then
    (SVR_INVALIDARGUMENT,
     { source with encoder := some (encoderInUse env source enc props) },
     [])
  else
    (SVR_SUCCESS,
     { source with encoder := some ⟨(env.encodeFrame
        (encoderInUse env source enc props) frame).state, []⟩ },
     (drainChunks source.payload_buffer_size
        (env.encodeFrame (encoderInUse env source enc props) frame).pending).map
       (fun c => ⟨["Data", source.name], c, false⟩))

/-- Frame properties derived from the first frame (`source.c:220`). -/
def derivedProperties (frame : IplImage) : SVR_FrameProperties :=
  ⟨frame.width, frame.height, frame.depth, frame.nChannels⟩

/-- SVR_Source_sendFrame (`source.c:209`): fail `InvalidState` without an
encoding; derive and install frame properties from the first frame when none
are installed, propagating a failure of the installation; then encode and
drain as in `sendFrameConfigured`. -/
def SVR_Source_sendFrame (env : Env) (source : SVR_Source) (frame : IplImage) :
    Int × SVR_Source × List SentMsg :=
  match source.encoding with
  | none => (SVR_INVALIDSTATE, source, [])
  | some enc =>
    match source.frame_properties with
    | some props => sendFrameConfigured env source enc props frame
    | none =>
      if (SVR_Source_setFrameProperties env source (derivedProperties frame)).1
          ≠ SVR_SUCCESS then
        SVR_Source_setFrameProperties env source (derivedProperties frame)
      else
        ((sendFrameConfigured env
            (SVR_Source_setFrameProperties env source (derivedProperties frame)).2.1
            enc (derivedProperties frame) frame).1,
         (sendFrameConfigured env
            (SVR_Source_setFrameProperties env source (derivedProperties frame)).2.1
            enc (derivedProperties frame) frame).2.1,
         (SVR_Source_setFrameProperties env source (derivedProperties frame)).2.2 ++
           (sendFrameConfigured env
             (SVR_Source_setFrameProperties env source (derivedProperties frame)).2.1
             enc (derivedProperties frame) frame).2.2)

/-- SVR_Source_new (`source.c:22`): ask the server to open a client source;
on any non-success response return NULL.  Otherwise allocate the source with
no encoding, options, encoder or frame properties and a 4096-byte payload
buffer, then set the encoding to `jpeg`, falling back to `raw` when that
fails. -/
def freshSource (name : String) : SVR_Source :=
  ⟨name, none, none, none, none, 4 * 1024⟩

def SVR_Source_new (env : Env) (name : String) :
    Option SVR_Source × List SentMsg :=
  if env.request ["Source.open", "client", name] ≠ SVR_SUCCESS then
    (none, [⟨["Source.open", "client", name], [], true⟩])
  else if (SVR_Source_setEncoding env (freshSource name) "jpeg").1
      ≠ SVR_SUCCESS then
    (some (SVR_Source_setEncoding env
        (SVR_Source_setEncoding env (freshSource name) "jpeg").2.1 "raw").2.1,
     ⟨["Source.open", "client", name], [], true⟩ ::
       ((SVR_Source_setEncoding env (freshSource name) "jpeg").2.2 ++
        (SVR_Source_setEncoding env
          (SVR_Source_setEncoding env (freshSource name) "jpeg").2.1 "raw").2.2))
  else
    (some (SVR_Source_setEncoding env (freshSource name) "jpeg").2.1,
     ⟨["Source.open", "client", name], [], true⟩ ::
       (SVR_Source_setEncoding env (freshSource name) "jpeg").2.2)

/-- SVR_Source_destroy (`source.c:69`): announce the close to the server and
return its response code (the freeing of the C object has no observable
counterpart in the model). -/
def SVR_Source_destroy (env : Env) (source : SVR_Source) : Int × List SentMsg :=
  let comps := ["Source.close", source.name]
  (env.request comps, [⟨comps, [], true⟩])

/-- SVR_openServerSource (`source.c:274`): ask the server to open a server
source described by the option string. -/
def SVR_openServerSource (env : Env) (name : String) (desc : String) :
    Int × List SentMsg :=
  let comps := ["Source.open", "server", name, desc]
  (env.request comps, [⟨comps, [], true⟩])

/-- SVR_closeServerSource (`source.c:302`): ask the server to close the
named server source. -/
def SVR_closeServerSource (env : Env) (name : String) : Int × List SentMsg :=
  let comps := ["Source.close", name]
  (env.request comps, [⟨comps, [], true⟩])

/-- SVR_getSourcesList (`source.c:329`): request the list of sources; every
response component after the status becomes a list entry. -/
def SVR_getSourcesList (env : Env) : List String × List SentMsg :=
  let comps := ["Source.getSourcesList"]
  ((env.respComponents comps).drop 1, [⟨comps, [], true⟩])

/-! Server-side reencoder interface (`include/svrd/reencoder.h`).  The
implementations live outside this repository; the header fixes the shape of
the operation: a function pointer taking the reencoder itself, the data
buffer provided by the source, and the number of bytes available, and
returning the number of bytes written. -/

/-- SVRs_Source handle as seen by the reencoder header: the server-side
source object, needed for frame properties and encoding; only its identity
matters here. -/
structure SVRs_Source where
  id : Nat
deriving DecidableEq

/-- SVRs_Stream handle as seen by the reencoder header. -/
structure SVRs_Stream where
  id : Nat
deriving DecidableEq

/-- SVRs_Reencoder (`reencoder.h:14`): source handle, stream handle, and the
`reencode` operation `size_t (*reencode)(SVRs_Reencoder*, void* data,
size_t data_available)`.  The self pointer of the C function pointer is the
record itself, so the field keeps the remaining two arguments: the data
bytes and the count of available bytes, returning the bytes-written count. -/
structure SVRs_Reencoder where
  source : SVRs_Source
  stream : SVRs_Stream
  reencode : List Nat → Nat → Nat

/-- ReencodeArgs: the argument bundle a caller can hand to the operation
declared in `reencoder.h`: data bytes and the available-byte count. -/
structure ReencodeArgs where
  data : List Nat
  data_available : Nat
deriving DecidableEq

/-- ReencodeArgsSpec is modelled from the spec: the argument bundle of the
contract the spec states for the reencoder operation,
`reencode(in_bytes, in_len, is_boundary)`, including its frame-boundary
flag.  It exists only to be compared with `ReencodeArgs`, the bundle the
header actually declares. -/
structure ReencodeArgsSpec where
  in_bytes : List Nat
  in_len : Nat
  is_boundary : Bool
deriving DecidableEq

/-- Erasure of the spec's argument bundle to the one the declared C
operation receives: the boundary flag has no counterpart and is dropped. -/
def reencodeArgsOfSpec (a : ReencodeArgsSpec) : ReencodeArgs :=
  ⟨a.in_bytes, a.in_len⟩

/-- SVRs_Reencoder_reencode (`reencoder.h:38`): dispatch through the
record's operation field. -/
def SVRs_Reencoder_reencode (r : SVRs_Reencoder) (a : ReencodeArgs) : Nat :=
  r.reencode a.data a.data_available

/-! Specification-side reading of decimal renderings.  `parseDec` is written
from the words of the spec ("as ASCII decimal integers"): an optional minus
sign followed by decimal digit characters, read back into the integer.  It
is deliberately independent of `intDec`, the model of `%d`. -/

/-- Value of a decimal digit character (code points 48 to 57), `none` on
any other character. -/
def digitVal (c : Char) : Option Nat :=
  if 48 ≤ c.toNat ∧ c.toNat ≤ 57 then some (c.toNat - 48) else none

/-- Accumulating reader of a digit sequence, most significant first. -/
def parseDigitsAux (acc : Nat) : List Char → Option Nat
  | [] => some acc
  | c :: cs =>
    match digitVal c with
    | some d => parseDigitsAux (acc * 10 + d) cs
    | none => none

/-- Read a nonempty digit sequence as a natural number. -/
def parseDecNat (cs : List Char) : Option Nat :=
  if cs.isEmpty then none else parseDigitsAux 0 cs

/-- Read a string as a signed ASCII decimal integer. -/
def parseDec (s : String) : Option Int :=
  match s.data with
  | [] => none
  | c :: cs =>
    if c = '-' then (parseDecNat cs).map (fun m => -(m : Int))
    else (parseDecNat (c :: cs)).map (fun m => (m : Int))

theorem digitVal_digitChar {d : Nat} (h : d < 10) :
    digitVal (digitChar d) = some d := by
  interval_cases d <;> rfl

theorem digitChar_ne_comma {d : Nat} (h : d < 10) : digitChar d ≠ ',' := by
  interval_cases d <;> decide

theorem digitChar_ne_minus {d : Nat} (h : d < 10) : digitChar d ≠ '-' := by
  interval_cases d <;> decide

theorem parseDigitsAux_append (acc : Nat) (xs ys : List Char) :
    parseDigitsAux acc (xs ++ ys) =
      (parseDigitsAux acc xs).bind (fun a => parseDigitsAux a ys) := by
  induction xs generalizing acc with
  | nil => rfl
  | cons c cs ih =>
    simp only [List.cons_append, parseDigitsAux]
    cases digitVal c with
    | none => rfl
    | some d => exact ih (acc * 10 + d)

theorem natDecDigits_ne_nil (m : Nat) : natDecDigits m ≠ [] := by
  rw [natDecDigits]
  split <;> simp

theorem natDecDigits_mem (m : Nat) :
    ∀ c ∈ natDecDigits m, ∃ d, d < 10 ∧ c = digitChar d := by
  induction m using Nat.strong_induction_on with
  | _ m ih =>
    intro c hc
    rw [natDecDigits] at hc
    by_cases h : m < 10
    · simp only [dif_pos h, List.mem_singleton] at hc
      exact ⟨m, h, hc⟩
    · simp only [dif_neg h, List.mem_append, List.mem_singleton] at hc
      rcases hc with hc | hc
      · exact ih (m / 10) (Nat.div_lt_self (by omega) (by omega)) c hc
      · exact ⟨m % 10, Nat.mod_lt _ (by omega), hc⟩

theorem parseDigitsAux_natDecDigits (m : Nat) : ∀ acc : Nat,
    parseDigitsAux acc (natDecDigits m) =
      some (acc * 10 ^ (natDecDigits m).length + m) := by
  induction m using Nat.strong_induction_on with
  | _ m ih =>
    intro acc
    rw [natDecDigits]
    by_cases h : m < 10
    · simp only [dif_pos h, parseDigitsAux, digitVal_digitChar h,
        List.length_singleton, pow_one]
    · have hdiv : m / 10 < m := Nat.div_lt_self (by omega) (by omega)
      simp only [dif_neg h, parseDigitsAux_append, ih (m / 10) hdiv acc,
        Option.some_bind, parseDigitsAux, digitVal_digitChar
          (Nat.mod_lt m (by omega) : m % 10 < 10),
        List.length_append, List.length_singleton]
      congr 1
      rw [pow_succ, ← mul_assoc]
      generalize acc * 10 ^ (natDecDigits (m / 10)).length = A
      omega

theorem parseDecNat_natDecDigits (m : Nat) :
    parseDecNat (natDecDigits m) = some m := by
  have hne := natDecDigits_ne_nil m
  rw [parseDecNat, if_neg (by simpa [List.isEmpty_iff] using hne)]
  simpa using parseDigitsAux_natDecDigits m 0

theorem parseDec_mk_cons (c : Char) (cs : List Char) :
    parseDec (String.mk (c :: cs)) =
      if c = '-' then (parseDecNat cs).map (fun m => -(m : Int))
      else (parseDecNat (c :: cs)).map (fun m => (m : Int)) := rfl

/-- Round trip: reading the `%d` rendering back as a signed ASCII decimal
integer recovers the value. -/
theorem parseDec_intDec (n : Int) : parseDec (intDec n) = some n := by
  by_cases hn : n < 0
  · rw [intDec, if_pos hn, parseDec_mk_cons, if_pos rfl,
      parseDecNat_natDecDigits]
    show some (-(n.natAbs : Int)) = some n
    congr 1
    omega
  · rw [intDec, if_neg hn]
    obtain ⟨c, cs, hcs⟩ :=
      List.exists_cons_of_ne_nil (natDecDigits_ne_nil n.natAbs)
    have hcmem : c ∈ natDecDigits n.natAbs := by
      rw [hcs]; exact List.mem_cons_self c cs
    obtain ⟨d, hd, hcd⟩ := natDecDigits_mem n.natAbs c hcmem
    rw [hcs, parseDec_mk_cons, if_neg (hcd ▸ digitChar_ne_minus hd), ← hcs,
      parseDecNat_natDecDigits]
    show some ((n.natAbs : Int)) = some n
    congr 1
    omega

/-- The `%d` rendering never contains a comma, so the comma-separated layout
of `formatFrameProperties` is unambiguous. -/
theorem intDec_no_comma (n : Int) : ∀ c ∈ (intDec n).data, c ≠ ',' := by
  intro c hc
  rw [intDec] at hc
  by_cases hn : n < 0
  · rw [if_pos hn] at hc
    rcases List.mem_cons.mp hc with hc | hc
    · subst hc; decide
    · obtain ⟨d, hd, hcd⟩ := natDecDigits_mem n.natAbs c hc
      exact hcd ▸ digitChar_ne_comma hd
  · rw [if_neg hn] at hc
    obtain ⟨d, hd, hcd⟩ := natDecDigits_mem n.natAbs c hc
    exact hcd ▸ digitChar_ne_comma hd

theorem drainChunks_flatten (cap : Nat) (hcap : cap ≠ 0) :
    ∀ l : List Nat, (drainChunks cap l).flatten = l := by
  have H : ∀ n : Nat, ∀ l : List Nat, l.length ≤ n →
      (drainChunks cap l).flatten = l := by
    intro n
    induction n with
    | zero =>
      intro l hl
      have hnil : l = [] := List.length_eq_zero.mp (Nat.le_zero.mp hl)
      subst hnil
      rw [drainChunks]
      simp
    | succ n ih =>
      intro l hl
      rw [drainChunks]
      by_cases hemp : l.isEmpty
      · rw [if_pos (Or.inl hemp)]
        simp [List.isEmpty_iff.mp hemp]
      · have hlen : l.length ≠ 0 := by
          simpa [List.isEmpty_iff, List.length_eq_zero] using hemp
        rw [if_neg (by simp [hemp, hcap])]
        have hdrop : (l.drop cap).length ≤ n := by
          simp only [List.length_drop]
          omega
        rw [List.flatten_cons, ih (l.drop cap) hdrop]
        exact List.take_append_drop cap l
  intro l
  exact H l.length l le_rfl

theorem drainChunks_le (cap : Nat) :
    ∀ l : List Nat, ∀ c ∈ drainChunks cap l, c.length ≤ cap := by
  have H : ∀ n : Nat, ∀ l : List Nat, l.length ≤ n →
      ∀ c ∈ drainChunks cap l, c.length ≤ cap := by
    intro n
    induction n with
    | zero =>
      intro l hl c hc
      have hnil : l = [] := List.length_eq_zero.mp (Nat.le_zero.mp hl)
      subst hnil
      rw [drainChunks] at hc
      simp at hc
    | succ n ih =>
      intro l hl c hc
      rw [drainChunks] at hc
      by_cases hcz : cap = 0
      · rw [if_pos (Or.inr hcz)] at hc
        simp at hc
      · by_cases hemp : l.isEmpty
        · rw [if_pos (Or.inl hemp)] at hc
          simp at hc
        · have hlen : l.length ≠ 0 := by
            simpa [List.isEmpty_iff, List.length_eq_zero] using hemp
          rw [if_neg (by simp [hemp, hcz])] at hc
          rcases List.mem_cons.mp hc with hc | hc
          · subst hc
            exact List.length_take_le cap l
          · have hdrop : (l.drop cap).length ≤ n := by
              simp only [List.length_drop]
              omega
            exact ih (l.drop cap) hdrop c hc
  intro l
  exact H l.length l le_rfl

/-! Branch lemmas: closed forms of each operation under the branch
conditions, shared by the claim theorems below. -/

theorem setEncoding_parse_fail (env : Env) (source : SVR_Source) (desc : String)
    (h : env.parseOptionString desc = none) :
    SVR_Source_setEncoding env source desc = (SVR_PARSEERROR, source, []) := by
  unfold SVR_Source_setEncoding
  rw [h]

theorem setEncoding_lookup_fail (env : Env) (source : SVR_Source) (desc : String)
    (options : Dict) (hp : env.parseOptionString desc = some options)
    (hl : env.getEncodingByName (Dictionary_get options "%name") = none) :
    SVR_Source_setEncoding env source desc = (SVR_NOSUCHENCODING, source, []) := by
  simp only [SVR_Source_setEncoding, hp, hl]

theorem setEncoding_success (env : Env) (source : SVR_Source) (desc : String)
    (options : Dict) (enc : SVR_Encoding)
    (hp : env.parseOptionString desc = some options)
    (hl : env.getEncodingByName (Dictionary_get options "%name") = some enc)
    (hr : env.request ["Source.setEncoding", source.name, desc] = SVR_SUCCESS) :
    SVR_Source_setEncoding env source desc =
      (SVR_SUCCESS,
       { source with encoding := some enc, encoding_options := some options },
       [⟨["Source.setEncoding", source.name, desc], [], true⟩]) := by
  simp [SVR_Source_setEncoding, hp, hl, hr]

theorem setEncoding_req_fail (env : Env) (source : SVR_Source) (desc : String)
    (options : Dict) (enc : SVR_Encoding)
    (hp : env.parseOptionString desc = some options)
    (hl : env.getEncodingByName (Dictionary_get options "%name") = some enc)
    (hr : env.request ["Source.setEncoding", source.name, desc] ≠ SVR_SUCCESS) :
    SVR_Source_setEncoding env source desc =
      (env.request ["Source.setEncoding", source.name, desc], source,
       [⟨["Source.setEncoding", source.name, desc], [], true⟩]) := by
  simp [SVR_Source_setEncoding, hp, hl, hr]

theorem setFrameProperties_success (env : Env) (source : SVR_Source)
    (fp : SVR_FrameProperties)
    (h : env.request (setFPComponents source.name fp) = SVR_SUCCESS) :
    SVR_Source_setFrameProperties env source fp =
      (SVR_SUCCESS, { source with frame_properties := some fp },
       [⟨setFPComponents source.name fp, [], true⟩]) := by
  simp [SVR_Source_setFrameProperties, h]

theorem setFrameProperties_req_fail (env : Env) (source : SVR_Source)
    (fp : SVR_FrameProperties)
    (h : env.request (setFPComponents source.name fp) ≠ SVR_SUCCESS) :
    SVR_Source_setFrameProperties env source fp =
      (env.request (setFPComponents source.name fp), source,
       [⟨setFPComponents source.name fp, [], true⟩]) := by
  simp [SVR_Source_setFrameProperties, h]

theorem sendFrame_no_encoding (env : Env) (source : SVR_Source) (frame : IplImage)
    (h : source.encoding = none) :
    SVR_Source_sendFrame env source frame = (SVR_INVALIDSTATE, source, []) := by
  unfold SVR_Source_sendFrame
  rw [h]

theorem sendFrame_with_props (env : Env) (source : SVR_Source) (frame : IplImage)
    (enc : SVR_Encoding) (props : SVR_FrameProperties)
    (henc : source.encoding = some enc)
    (hfp : source.frame_properties = some props) :
    SVR_Source_sendFrame env source frame =
      sendFrameConfigured env source enc props frame := by
  unfold SVR_Source_sendFrame
  rw [henc, hfp]

theorem sendFrame_derive_fail (env : Env) (source : SVR_Source)
    (frame : IplImage) (enc : SVR_Encoding)
    (henc : source.encoding = some enc)
    (hfp : source.frame_properties = none)
    (hreq : env.request (setFPComponents source.name (derivedProperties frame))
      ≠ SVR_SUCCESS) :
    SVR_Source_sendFrame env source frame =
      (env.request (setFPComponents source.name (derivedProperties frame)),
       source,
       [⟨setFPComponents source.name (derivedProperties frame), [], true⟩]) := by
  simp only [SVR_Source_sendFrame, henc, hfp,
    setFrameProperties_req_fail env source (derivedProperties frame) hreq,
    ne_eq, ite_not]
  simp [hreq]

theorem sendFrame_derive_success (env : Env) (source : SVR_Source)
    (frame : IplImage) (enc : SVR_Encoding)
    (henc : source.encoding = some enc)
    (hfp : source.frame_properties = none)
    (hreq : env.request (setFPComponents source.name (derivedProperties frame))
      = SVR_SUCCESS) :
    SVR_Source_sendFrame env source frame =
      ((sendFrameConfigured env
          { source with frame_properties := some (derivedProperties frame) }
          enc (derivedProperties frame) frame).1,
       (sendFrameConfigured env
          { source with frame_properties := some (derivedProperties frame) }
          enc (derivedProperties frame) frame).2.1,
       ⟨setFPComponents source.name (derivedProperties frame), [], true⟩ ::
         (sendFrameConfigured env
           { source with frame_properties := some (derivedProperties frame) }
           enc (derivedProperties frame) frame).2.2) := by
  simp only [SVR_Source_sendFrame, henc, hfp,
    setFrameProperties_success env source (derivedProperties frame) hreq]
  simp

theorem sendFrameConfigured_mismatch (env : Env) (source : SVR_Source)
    (enc : SVR_Encoding) (props : SVR_FrameProperties) (frame : IplImage)
    (h : frame.width ≠ props.width ∨ frame.height ≠ props.height ∨
      frame.depth ≠ props.depth ∨ frame.nChannels ≠ props.channels) :
    sendFrameConfigured env source enc props frame =
      (SVR_INVALIDARGUMENT,
       { source with encoder := some (encoderInUse env source enc props) },
       []) := by
  unfold sendFrameConfigured
  rw [if_pos h]

theorem sendFrameConfigured_match (env : Env) (source : SVR_Source)
    (enc : SVR_Encoding) (props : SVR_FrameProperties) (frame : IplImage)
    (h : ¬(frame.width ≠ props.width ∨ frame.height ≠ props.height ∨
      frame.depth ≠ props.depth ∨ frame.nChannels ≠ props.channels)) :
    sendFrameConfigured env source enc props frame =
      (SVR_SUCCESS,
       { source with encoder := some ⟨(env.encodeFrame
          (encoderInUse env source enc props) frame).state, []⟩ },
       (drainChunks source.payload_buffer_size
          (env.encodeFrame (encoderInUse env source enc props) frame).pending).map
         (fun c => ⟨["Data", source.name], c, false⟩)) := by
  unfold sendFrameConfigured
  rw [if_neg h]

/-! Concrete fixtures used by counterexamples and witnesses. -/

/-- Parsed dictionary of the descriptor `raw`. -/
def rawDict : Dict := [("%name", "raw")]

/-- The registered `raw` encoding. -/
def rawEncoding : SVR_Encoding := ⟨"raw"⟩

/-- Environment in which every collaborator succeeds: the parser returns
`rawDict`, the registry resolves every name to `rawEncoding`, every request
is answered `SVR_SUCCESS`, and encoding a frame appends three bytes. -/
def envOk : Env :=
  { parseOptionString := fun _ => some rawDict
    getEncodingByName := fun _ => some rawEncoding
    request := fun _ => SVR_SUCCESS
    respComponents := fun _ => []
    newEncoder := fun _ _ _ => ⟨0, []⟩
    encodeFrame := fun e _ => ⟨e.state + 1, e.pending ++ [1, 2, 3]⟩ }

/-- Environment identical to `envOk` except every request fails. -/
def envReqFail : Env :=
  { envOk with request := fun _ => SVR_NOSUCHSOURCE }

/-- A 640 by 480, 8-bit, 3-channel frame-properties value. -/
def props640 : SVR_FrameProperties := ⟨640, 480, 8, 3⟩

/-- A frame matching `props640`. -/
def frame640 : IplImage := ⟨640, 480, 8, 3⟩

/-- A frame of a different shape. -/
def frame320 : IplImage := ⟨320, 240, 8, 3⟩

/-- A source with no encoding, options, encoder or properties. -/
def srcNoEncoding : SVR_Source := ⟨"cam", none, none, none, none, 4 * 1024⟩

/-- A source with installed frame properties but no encoding. -/
def srcPropsNoEncoding : SVR_Source :=
  ⟨"cam", none, none, none, some props640, 4 * 1024⟩

/-- A fully configured source with no encoder yet. -/
def srcConfigured : SVR_Source :=
  ⟨"cam", some rawEncoding, some rawDict, none, some props640, 4 * 1024⟩

/-- A fully configured source with a live encoder. -/
def srcWithEncoder : SVR_Source :=
  ⟨"cam", some rawEncoding, some rawDict, some ⟨5, [9]⟩, some props640, 4 * 1024⟩

/-- A source with an encoding but no frame properties yet. -/
def srcNoProps : SVR_Source :=
  ⟨"cam", some rawEncoding, some rawDict, none, none, 4 * 1024⟩

theorem encoderInUse_installed (env : Env) (source : SVR_Source)
    (enc : SVR_Encoding) (props : SVR_FrameProperties) (e : SVR_Encoder)
    (he : source.encoder = some e) :
    encoderInUse env source enc props = e := by
  unfold encoderInUse
  rw [he]

theorem encoderInUse_fresh (env : Env) (source : SVR_Source)
    (enc : SVR_Encoding) (props : SVR_FrameProperties)
    (he : source.encoder = none) :
    encoderInUse env source enc props =
      env.newEncoder enc source.encoding_options props := by
  unfold encoderInUse
  rw [he]

theorem setEncoding_encoder (env : Env) (source : SVR_Source) (desc : String) :
    (SVR_Source_setEncoding env source desc).2.1.encoder = source.encoder := by
  unfold SVR_Source_setEncoding
  split
  · rfl
  · split
    · rfl
    · dsimp only
      split
      · rfl
      · rfl

theorem setFrameProperties_encoder (env : Env) (source : SVR_Source)
    (fp : SVR_FrameProperties) :
    (SVR_Source_setFrameProperties env source fp).2.1.encoder =
      source.encoder := by
  unfold SVR_Source_setFrameProperties
  dsimp only
  split
  · rfl
  · rfl

theorem dataMsgs_shape (name : String) (chunks : List (List Nat)) :
    ∀ m ∈ chunks.map (fun c => (⟨["Data", name], c, false⟩ : SentMsg)),
      m.components = ["Data", name] ∧ m.expect_response = false := by
  intro m hm
  obtain ⟨c, _, hc⟩ := List.mem_map.mp hm
  rw [← hc]
  exact ⟨rfl, rfl⟩

/-- C9: for every source whose encoding is unset, send_frame returns
InvalidState immediately: the source is returned unchanged, so no frame
properties are derived or installed and no encoder is constructed, and no
message is sent. -/
theorem C9_sendFrame_invalidState (env : Env) (source : SVR_Source)
    (frame : IplImage) (h : source.encoding = none) :
    SVR_Source_sendFrame env source frame = (SVR_INVALIDSTATE, source, []) :=
  sendFrame_no_encoding env source frame h

theorem C9_sendFrame_invalidState_witness :
    SVR_Source_sendFrame envOk srcNoEncoding frame640 =
      (SVR_INVALIDSTATE, srcNoEncoding, []) :=
  C9_sendFrame_invalidState envOk srcNoEncoding frame640 rfl

/-- C1 counterexample: a source with installed frame properties whose
encoding is unset answers a frame of differing shape with InvalidState, not
InvalidArgument, refuting the claim as stated over every source with
installed frame properties. -/
theorem C1_counterexample :
    srcPropsNoEncoding.frame_properties = some props640 ∧
    frame320.width ≠ props640.width ∧
    SVR_Source_sendFrame envOk srcPropsNoEncoding frame320 =
      (SVR_INVALIDSTATE, srcPropsNoEncoding, []) ∧
    SVR_INVALIDSTATE ≠ SVR_INVALIDARGUMENT :=
  ⟨rfl, by decide, rfl, by decide⟩

/-- C1 (amended): for every source with an installed encoding and installed
frame properties, send_frame on a frame whose width, height, depth or
channels differ from the installed properties returns InvalidArgument and
sends no message, so no bytes are forwarded; no frame is pushed into the
encoder: the resulting encoder is `encoderInUse`, which is the previous
encoder untouched whenever one was installed. -/
theorem C1_mismatch_rejected (env : Env) (source : SVR_Source)
    (frame : IplImage) (enc : SVR_Encoding) (props : SVR_FrameProperties)
    (henc : source.encoding = some enc)
    (hfp : source.frame_properties = some props)
    (hmis : frame.width ≠ props.width ∨ frame.height ≠ props.height ∨
      frame.depth ≠ props.depth ∨ frame.nChannels ≠ props.channels) :
    SVR_Source_sendFrame env source frame =
      (SVR_INVALIDARGUMENT,
       { source with encoder := some (encoderInUse env source enc props) },
       []) ∧
    (∀ e, source.encoder = some e → encoderInUse env source enc props = e) := by
  constructor
  · rw [sendFrame_with_props env source frame enc props henc hfp]
    exact sendFrameConfigured_mismatch env source enc props frame hmis
  · intro e he
    exact encoderInUse_installed env source enc props e he

theorem C1_mismatch_rejected_witness :
    SVR_Source_sendFrame envOk srcWithEncoder frame320 =
      (SVR_INVALIDARGUMENT,
       { srcWithEncoder with
           encoder := some (encoderInUse envOk srcWithEncoder rawEncoding props640) },
       []) ∧
    (∀ e, srcWithEncoder.encoder = some e →
      encoderInUse envOk srcWithEncoder rawEncoding props640 = e) :=
  C1_mismatch_rejected envOk srcWithEncoder frame320 rawEncoding props640 rfl rfl
    (Or.inl (by decide))

/-- C2 counterexample: a source whose frame properties are unset but whose
encoding is also unset neither derives nor installs properties, although
the environment would answer the installation request with Success: the
send returns InvalidState with no message, refuting the claim's universal
derivation over every source with unset properties. -/
theorem C2_counterexample :
    srcNoEncoding.frame_properties = none ∧
    envOk.request (setFPComponents "cam" ⟨640, 480, 8, 3⟩) = SVR_SUCCESS ∧
    (SVR_Source_sendFrame envOk srcNoEncoding frame640).2.1.frame_properties
      = none ∧
    (SVR_Source_sendFrame envOk srcNoEncoding frame640).2.2 = [] ∧
    (SVR_Source_sendFrame envOk srcNoEncoding frame640).1 = SVR_INVALIDSTATE :=
  ⟨rfl, rfl, rfl, rfl, rfl⟩

/-- C2 (amended): for every source with an installed encoding whose frame
properties are unset, send_frame derives properties from the frame and
installs them through set_frame_properties before anything is encoded: on a
failed installation it returns the failure code having sent only the
installation request (no Data message, no bytes), and on success the
properties are installed and the installation request precedes every Data
message in the trace. -/
theorem C2_derive_install (env : Env) (source : SVR_Source) (frame : IplImage)
    (enc : SVR_Encoding) (henc : source.encoding = some enc)
    (hfp : source.frame_properties = none) :
    (env.request (setFPComponents source.name (derivedProperties frame))
        ≠ SVR_SUCCESS →
      SVR_Source_sendFrame env source frame =
        (env.request (setFPComponents source.name (derivedProperties frame)),
         source,
         [⟨setFPComponents source.name (derivedProperties frame), [], true⟩])) ∧
    (env.request (setFPComponents source.name (derivedProperties frame))
        = SVR_SUCCESS →
      (SVR_Source_sendFrame env source frame).2.1.frame_properties =
        some (derivedProperties frame) ∧
      ∃ rest, (SVR_Source_sendFrame env source frame).2.2 =
          ⟨setFPComponents source.name (derivedProperties frame), [], true⟩ ::
            rest ∧
        ∀ m ∈ rest, m.components = ["Data", source.name] ∧
          m.expect_response = false) := by
  constructor
  · intro hreq
    exact sendFrame_derive_fail env source frame enc henc hfp hreq
  · intro hreq
    rw [sendFrame_derive_success env source frame enc henc hfp hreq]
    rw [sendFrameConfigured_match env _ enc _ frame (by simp [derivedProperties])]
    exact ⟨rfl, _, rfl, dataMsgs_shape source.name _⟩

theorem C2_derive_install_witness :
    (SVR_Source_sendFrame envOk srcNoProps frame640).2.1.frame_properties =
      some (derivedProperties frame640) ∧
    ∃ rest, (SVR_Source_sendFrame envOk srcNoProps frame640).2.2 =
        ⟨setFPComponents srcNoProps.name (derivedProperties frame640),
         [], true⟩ :: rest ∧
      ∀ m ∈ rest, m.components = ["Data", srcNoProps.name] ∧
        m.expect_response = false :=
  (C2_derive_install envOk srcNoProps frame640 rawEncoding rfl rfl).2 rfl

/-- C3: set_encoding returns ParseError when the option string does not
parse and NoSuchEncoding when the `%name` encoding is not registered, in
both cases leaving the source untouched and sending nothing; when the
server accepts, it replaces the encoding and encoding options with the
parsed values and returns Success; when the server refuses, it returns the
server's code and leaves the source unchanged. -/
theorem C3_setEncoding_spec (env : Env) (source : SVR_Source) (desc : String) :
    (env.parseOptionString desc = none →
      SVR_Source_setEncoding env source desc = (SVR_PARSEERROR, source, [])) ∧
    (∀ options : Dict, env.parseOptionString desc = some options →
      env.getEncodingByName (Dictionary_get options "%name") = none →
      SVR_Source_setEncoding env source desc =
        (SVR_NOSUCHENCODING, source, [])) ∧
    (∀ (options : Dict) (enc : SVR_Encoding),
      env.parseOptionString desc = some options →
      env.getEncodingByName (Dictionary_get options "%name") = some enc →
      (env.request ["Source.setEncoding", source.name, desc] = SVR_SUCCESS →
        SVR_Source_setEncoding env source desc =
          (SVR_SUCCESS,
           { source with encoding := some enc,
                         encoding_options := some options },
           [⟨["Source.setEncoding", source.name, desc], [], true⟩])) ∧
      (env.request ["Source.setEncoding", source.name, desc] ≠ SVR_SUCCESS →
        (SVR_Source_setEncoding env source desc).1 =
          env.request ["Source.setEncoding", source.name, desc] ∧
        (SVR_Source_setEncoding env source desc).2.1 = source)) := by
  refine ⟨fun h => setEncoding_parse_fail env source desc h,
    fun options hp hl => setEncoding_lookup_fail env source desc options hp hl,
    fun options enc hp hl =>
      ⟨fun hr => setEncoding_success env source desc options enc hp hl hr,
       fun hr => ?_⟩⟩
  rw [setEncoding_req_fail env source desc options enc hp hl hr]
  exact ⟨rfl, rfl⟩

theorem C3_setEncoding_spec_witness :
    SVR_Source_setEncoding envOk srcNoEncoding "raw" =
      (SVR_SUCCESS,
       { srcNoEncoding with encoding := some rawEncoding,
                            encoding_options := some rawDict },
       [⟨["Source.setEncoding", "cam", "raw"], [], true⟩]) :=
  ((C3_setEncoding_spec envOk srcNoEncoding "raw").2.2 rawDict rawEncoding
    rfl rfl).1 rfl

/-- C4 counterexample: a successful set_encoding and a successful
set_frame_properties (with properties different from the installed ones)
both leave the live encoder of `srcWithEncoder` installed: the encoder
field does not become unset, refuting the claimed discard. -/
theorem C4_counterexample :
    (SVR_Source_setEncoding envOk srcWithEncoder "raw").1 = SVR_SUCCESS ∧
    (SVR_Source_setEncoding envOk srcWithEncoder "raw").2.1.encoder =
      some ⟨5, [9]⟩ ∧
    (SVR_Source_setFrameProperties envOk srcWithEncoder ⟨320, 240, 8, 3⟩).1 =
      SVR_SUCCESS ∧
    (SVR_Source_setFrameProperties envOk srcWithEncoder
        ⟨320, 240, 8, 3⟩).2.1.encoder = some ⟨5, [9]⟩ ∧
    srcWithEncoder.frame_properties ≠ some ⟨320, 240, 8, 3⟩ :=
  ⟨rfl, rfl, rfl, rfl, by decide⟩

/-- C4 (amended): set_encoding and set_frame_properties leave the encoder
field exactly as it was (it is not discarded), so a subsequent send_frame
keeps using the installed encoder; an encoder is constructed from
(encoding, options, properties) only when the field is unset. -/
theorem C4_encoder_retained (env : Env) (source : SVR_Source) (desc : String)
    (fp : SVR_FrameProperties) (frame : IplImage) (enc : SVR_Encoding)
    (props : SVR_FrameProperties) :
    (SVR_Source_setEncoding env source desc).2.1.encoder = source.encoder ∧
    (SVR_Source_setFrameProperties env source fp).2.1.encoder =
      source.encoder ∧
    (source.encoding = some enc → source.frame_properties = some props →
      ∀ e, source.encoder = some e →
        ((SVR_Source_sendFrame env source frame).2.1.encoder = some e ∨
         (SVR_Source_sendFrame env source frame).2.1.encoder =
           some ⟨(env.encodeFrame e frame).state, []⟩)) ∧
    (source.encoding = some enc → source.frame_properties = some props →
      source.encoder = none →
        ((SVR_Source_sendFrame env source frame).2.1.encoder =
           some (env.newEncoder enc source.encoding_options props) ∨
         (SVR_Source_sendFrame env source frame).2.1.encoder =
           some ⟨(env.encodeFrame
             (env.newEncoder enc source.encoding_options props) frame).state,
             []⟩)) := by
  refine ⟨setEncoding_encoder env source desc,
    setFrameProperties_encoder env source fp, ?_, ?_⟩
  · intro henc hfp e he
    rw [sendFrame_with_props env source frame enc props henc hfp]
    by_cases hmis : frame.width ≠ props.width ∨ frame.height ≠ props.height ∨
      frame.depth ≠ props.depth ∨ frame.nChannels ≠ props.channels
    · left
      rw [sendFrameConfigured_mismatch env source enc props frame hmis,
        encoderInUse_installed env source enc props e he]
    · right
      rw [sendFrameConfigured_match env source enc props frame hmis,
        encoderInUse_installed env source enc props e he]
  · intro henc hfp he
    rw [sendFrame_with_props env source frame enc props henc hfp]
    by_cases hmis : frame.width ≠ props.width ∨ frame.height ≠ props.height ∨
      frame.depth ≠ props.depth ∨ frame.nChannels ≠ props.channels
    · left
      rw [sendFrameConfigured_mismatch env source enc props frame hmis,
        encoderInUse_fresh env source enc props he]
    · right
      rw [sendFrameConfigured_match env source enc props frame hmis,
        encoderInUse_fresh env source enc props he]

theorem C4_encoder_retained_witness :
    (SVR_Source_setEncoding envOk srcWithEncoder "raw").2.1.encoder =
      srcWithEncoder.encoder ∧
    (SVR_Source_setFrameProperties envOk srcWithEncoder
        ⟨320, 240, 8, 3⟩).2.1.encoder = srcWithEncoder.encoder ∧
    ((SVR_Source_sendFrame envOk srcWithEncoder frame640).2.1.encoder =
       some ⟨5, [9]⟩ ∨
     (SVR_Source_sendFrame envOk srcWithEncoder frame640).2.1.encoder =
       some ⟨(envOk.encodeFrame ⟨5, [9]⟩ frame640).state, []⟩) :=
  ⟨(C4_encoder_retained envOk srcWithEncoder "raw" ⟨320, 240, 8, 3⟩ frame640
      rawEncoding props640).1,
   (C4_encoder_retained envOk srcWithEncoder "raw" ⟨320, 240, 8, 3⟩ frame640
      rawEncoding props640).2.1,
   (C4_encoder_retained envOk srcWithEncoder "raw" ⟨320, 240, 8, 3⟩ frame640
      rawEncoding props640).2.2.1 rfl rfl ⟨5, [9]⟩ rfl⟩

/-- C5: for every frame accepted by send_frame (installed encoding and
properties, matching shape), the frame is pushed into the in-use encoder
and the encoder is drained into a sequence of chunks, each sent as a `Data`
message with components ["Data", source name] and expect_response = false
(Data messages never elicit a response); every chunk holds at most the
payload-buffer size of 4096 bytes and the chunks concatenate to the whole
of the encoder's pending output (the loop runs while data_ready is
positive). -/
theorem C5_drain_spec (env : Env) (source : SVR_Source) (frame : IplImage)
    (enc : SVR_Encoding) (props : SVR_FrameProperties)
    (henc : source.encoding = some enc)
    (hfp : source.frame_properties = some props)
    (hsz : source.payload_buffer_size = 4 * 1024)
    (hmatch : frame.width = props.width ∧ frame.height = props.height ∧
      frame.depth = props.depth ∧ frame.nChannels = props.channels) :
    (SVR_Source_sendFrame env source frame).1 = SVR_SUCCESS ∧
    (SVR_Source_sendFrame env source frame).2.2 =
      (drainChunks source.payload_buffer_size
        (env.encodeFrame (encoderInUse env source enc props) frame).pending).map
        (fun c => ⟨["Data", source.name], c, false⟩) ∧
    (∀ m ∈ (SVR_Source_sendFrame env source frame).2.2,
      m.components = ["Data", source.name] ∧ m.expect_response = false ∧
      m.payload.length ≤ 4 * 1024) ∧
    ((SVR_Source_sendFrame env source frame).2.2.map SentMsg.payload).flatten =
      (env.encodeFrame (encoderInUse env source enc props) frame).pending := by
  have hnot : ¬(frame.width ≠ props.width ∨ frame.height ≠ props.height ∨
      frame.depth ≠ props.depth ∨ frame.nChannels ≠ props.channels) := by
    push_neg
    exact ⟨hmatch.1, hmatch.2.1, hmatch.2.2.1, hmatch.2.2.2⟩
  rw [sendFrame_with_props env source frame enc props henc hfp,
    sendFrameConfigured_match env source enc props frame hnot]
  refine ⟨rfl, rfl, ?_, ?_⟩
  · intro m hm
    obtain ⟨c, hcmem, hc⟩ := List.mem_map.mp hm
    rw [← hc]
    refine ⟨rfl, rfl, ?_⟩
    have hle := drainChunks_le source.payload_buffer_size _ c hcmem
    rw [hsz] at hle
    exact hle
  · rw [List.map_map]
    have hcomp : (SentMsg.payload ∘
        fun c => (⟨["Data", source.name], c, false⟩ : SentMsg)) = id := rfl
    rw [hcomp, List.map_id]
    refine drainChunks_flatten source.payload_buffer_size ?_ _
    rw [hsz]
    omega

theorem C5_drain_spec_witness :
    (SVR_Source_sendFrame envOk srcConfigured frame640).1 = SVR_SUCCESS ∧
    (SVR_Source_sendFrame envOk srcConfigured frame640).2.2 =
      (drainChunks srcConfigured.payload_buffer_size
        (envOk.encodeFrame
          (encoderInUse envOk srcConfigured rawEncoding props640)
          frame640).pending).map
        (fun c => ⟨["Data", srcConfigured.name], c, false⟩) ∧
    (∀ m ∈ (SVR_Source_sendFrame envOk srcConfigured frame640).2.2,
      m.components = ["Data", srcConfigured.name] ∧
      m.expect_response = false ∧ m.payload.length ≤ 4 * 1024) ∧
    ((SVR_Source_sendFrame envOk srcConfigured frame640).2.2.map
        SentMsg.payload).flatten =
      (envOk.encodeFrame
        (encoderInUse envOk srcConfigured rawEncoding props640)
        frame640).pending :=
  C5_drain_spec envOk srcConfigured frame640 rawEncoding props640 rfl rfl rfl
    ⟨rfl, rfl, rfl, rfl⟩

theorem setEncoding_preserves (env : Env) (source : SVR_Source) (desc : String) :
    (SVR_Source_setEncoding env source desc).2.1.name = source.name ∧
    (SVR_Source_setEncoding env source desc).2.1.encoder = source.encoder ∧
    (SVR_Source_setEncoding env source desc).2.1.frame_properties =
      source.frame_properties ∧
    (SVR_Source_setEncoding env source desc).2.1.payload_buffer_size =
      source.payload_buffer_size := by
  unfold SVR_Source_setEncoding
  split
  · exact ⟨rfl, rfl, rfl, rfl⟩
  · split
    · exact ⟨rfl, rfl, rfl, rfl⟩
    · dsimp only
      split
      · exact ⟨rfl, rfl, rfl, rfl⟩
      · exact ⟨rfl, rfl, rfl, rfl⟩

theorem setFrameProperties_name (env : Env) (source : SVR_Source)
    (fp : SVR_FrameProperties) :
    (SVR_Source_setFrameProperties env source fp).2.1.name = source.name := by
  unfold SVR_Source_setFrameProperties
  dsimp only
  split <;> rfl

theorem setFrameProperties_trace (env : Env) (source : SVR_Source)
    (fp : SVR_FrameProperties) :
    (SVR_Source_setFrameProperties env source fp).2.2 =
      [⟨setFPComponents source.name fp, [], true⟩] := by
  unfold SVR_Source_setFrameProperties
  dsimp only
  split <;> rfl

theorem setEncoding_trace (env : Env) (source : SVR_Source) (desc : String) :
    ∀ m ∈ (SVR_Source_setEncoding env source desc).2.2,
      m.components = ["Source.setEncoding", source.name, desc] := by
  intro m hm
  unfold SVR_Source_setEncoding at hm
  split at hm
  · simp at hm
  · split at hm
    · simp at hm
    · dsimp only at hm
      split at hm
      · dsimp only at hm
        rw [List.mem_singleton] at hm
        rw [hm]
      · dsimp only at hm
        rw [List.mem_singleton] at hm
        rw [hm]

theorem sendFrameConfigured_trace (env : Env) (source : SVR_Source)
    (enc : SVR_Encoding) (props : SVR_FrameProperties) (frame : IplImage) :
    ∀ m ∈ (sendFrameConfigured env source enc props frame).2.2,
      m.components = ["Data", source.name] := by
  intro m hm
  unfold sendFrameConfigured at hm
  split at hm
  · dsimp only at hm
    simp at hm
  · dsimp only at hm
    obtain ⟨c, _, hc⟩ := List.mem_map.mp hm
    rw [← hc]

theorem sendFrame_trace (env : Env) (source : SVR_Source) (frame : IplImage) :
    ∀ m ∈ (SVR_Source_sendFrame env source frame).2.2,
      m.components = setFPComponents source.name (derivedProperties frame) ∨
      m.components = ["Data", source.name] := by
  intro m hm
  unfold SVR_Source_sendFrame at hm
  split at hm
  · simp at hm
  · split at hm
    · right
      exact sendFrameConfigured_trace env source _ _ frame m hm
    · split at hm
      · left
        rw [setFrameProperties_trace env source (derivedProperties frame),
          List.mem_singleton] at hm
        rw [hm]
      · dsimp only at hm
        rw [List.mem_append] at hm
        rcases hm with hm | hm
        · left
          rw [setFrameProperties_trace env source (derivedProperties frame),
            List.mem_singleton] at hm
          rw [hm]
        · right
          have hdata := sendFrameConfigured_trace env
            (SVR_Source_setFrameProperties env source
              (derivedProperties frame)).2.1 _ _ frame m hm
          rw [hdata, setFrameProperties_name env source (derivedProperties frame)]

theorem source_new_trace (env : Env) (name : String) :
    ∀ m ∈ (SVR_Source_new env name).2,
      m.components = ["Source.open", "client", name] ∨
      m.components = ["Source.setEncoding", name, "jpeg"] ∨
      m.components = ["Source.setEncoding", name, "raw"] := by
  intro m hm
  unfold SVR_Source_new at hm
  split at hm
  · rw [List.mem_singleton] at hm
    rw [hm]
    left
    rfl
  · split at hm
    · dsimp only at hm
      rw [List.mem_cons] at hm
      rcases hm with hm | hm
      · rw [hm]
        left
        rfl
      · rw [List.mem_append] at hm
        rcases hm with hm | hm
        · right; left
          have h := setEncoding_trace env (freshSource name) "jpeg" m hm
          rw [h]
          rfl
        · right; right
          have h := setEncoding_trace env
            (SVR_Source_setEncoding env (freshSource name) "jpeg").2.1 "raw" m hm
          rw [h, (setEncoding_preserves env (freshSource name) "jpeg").1]
          rfl
    · dsimp only at hm
      rw [List.mem_cons] at hm
      rcases hm with hm | hm
      · rw [hm]
        left
        rfl
      · right; left
        have h := setEncoding_trace env (freshSource name) "jpeg" m hm
        rw [h]
        rfl

theorem source_new_fields (env : Env) (name : String) (s : SVR_Source)
    (hs : (SVR_Source_new env name).1 = some s) :
    s.name = name ∧ s.encoder = none ∧ s.frame_properties = none ∧
      s.payload_buffer_size = 4 * 1024 := by
  unfold SVR_Source_new at hs
  split at hs
  · simp at hs
  · split at hs
    · have hx := Option.some.inj hs
      rw [← hx]
      have h1 := setEncoding_preserves env
        (SVR_Source_setEncoding env (freshSource name) "jpeg").2.1 "raw"
      have h2 := setEncoding_preserves env (freshSource name) "jpeg"
      exact ⟨by rw [h1.1, h2.1]; rfl, by rw [h1.2.1, h2.2.1]; rfl,
        by rw [h1.2.2.1, h2.2.2.1]; rfl, by rw [h1.2.2.2, h2.2.2.2]; rfl⟩
    · have hx := Option.some.inj hs
      rw [← hx]
      have h2 := setEncoding_preserves env (freshSource name) "jpeg"
      exact ⟨by rw [h2.1]; rfl, by rw [h2.2.1]; rfl, by rw [h2.2.2.1]; rfl,
        by rw [h2.2.2.2]; rfl⟩

/-- A sample reencoder implementation: reports the whole input consumed. -/
def sampleReencoder : SVRs_Reencoder :=
  ⟨⟨1⟩, ⟨2⟩, fun d n => d.length + n⟩

/-- C6 counterexample: two argument bundles of the contract stated by the
spec that differ only in the frame-boundary flag erase to the same argument
bundle of the operation declared in `reencoder.h`, because the declared
signature `reencode(reencoder, data, data_available)` has no boundary
parameter; the claimed contract is therefore not the one the header
exposes. -/
theorem C6_counterexample :
    reencodeArgsOfSpec ⟨[], 0, true⟩ = reencodeArgsOfSpec ⟨[], 0, false⟩ ∧
    (⟨[], 0, true⟩ : ReencodeArgsSpec) ≠ ⟨[], 0, false⟩ :=
  ⟨rfl, by decide⟩

/-- C6 (amended): the reencoder operation takes the reencoder, the input
bytes and the count of available input bytes and returns the number of
bytes written, `reencode(reencoder, data, data_available) → bytes_written`;
there is no frame-boundary argument, so the result depends only on the
input bytes and the count. -/
theorem C6_reencode_contract (r : SVRs_Reencoder) (a b : ReencodeArgsSpec)
    (hbytes : a.in_bytes = b.in_bytes) (hlen : a.in_len = b.in_len) :
    SVRs_Reencoder_reencode r (reencodeArgsOfSpec a) =
      SVRs_Reencoder_reencode r (reencodeArgsOfSpec b) ∧
    SVRs_Reencoder_reencode r (reencodeArgsOfSpec a) =
      r.reencode a.in_bytes a.in_len := by
  unfold SVRs_Reencoder_reencode reencodeArgsOfSpec
  rw [hbytes, hlen]
  exact ⟨rfl, rfl⟩

theorem C6_reencode_contract_witness :
    SVRs_Reencoder_reencode sampleReencoder
        (reencodeArgsOfSpec ⟨[7], 1, true⟩) =
      SVRs_Reencoder_reencode sampleReencoder
        (reencodeArgsOfSpec ⟨[7], 1, false⟩) ∧
    SVRs_Reencoder_reencode sampleReencoder
        (reencodeArgsOfSpec ⟨[7], 1, true⟩) =
      sampleReencoder.reencode [7] 1 :=
  C6_reencode_contract sampleReencoder ⟨[7], 1, true⟩ ⟨[7], 1, false⟩ rfl rfl

/-- C7 counterexample: the Source.open messages the library actually sends
place the kind before the name: opening the client source "cam" sends
components ["Source.open", "client", "cam"] and the server open sends
["Source.open", "server", "cam", "test"], so the name does not come before
the kind as the claim states. -/
theorem C7_counterexample :
    (SVR_Source_new envOk "cam").2.head? =
      some ⟨["Source.open", "client", "cam"], [], true⟩ ∧
    (SVR_openServerSource envOk "cam" "test").2 =
      [⟨["Source.open", "server", "cam", "test"], [], true⟩] ∧
    "client" ≠ "cam" :=
  ⟨rfl, rfl, by decide⟩

/-- C7 (amended): every verb message sent by the client library carries its
arguments in the code's component order; in particular both Source.open
forms place the kind at the component after the verb and the source name
after the kind — open(kind, name, [descriptor]) — while every other verb
places the source name directly after the verb. -/
theorem C7_component_order (env : Env) (source : SVR_Source)
    (name desc : String) (fp : SVR_FrameProperties) (frame : IplImage) :
    (∀ m ∈ (SVR_Source_new env name).2,
      m.components = ["Source.open", "client", name] ∨
      m.components = ["Source.setEncoding", name, "jpeg"] ∨
      m.components = ["Source.setEncoding", name, "raw"]) ∧
    (SVR_openServerSource env name desc).2 =
      [⟨["Source.open", "server", name, desc], [], true⟩] ∧
    (SVR_Source_destroy env source).2 =
      [⟨["Source.close", source.name], [], true⟩] ∧
    (SVR_closeServerSource env name).2 =
      [⟨["Source.close", name], [], true⟩] ∧
    (∀ m ∈ (SVR_Source_setEncoding env source desc).2.2,
      m.components = ["Source.setEncoding", source.name, desc]) ∧
    (SVR_Source_setFrameProperties env source fp).2.2 =
      [⟨setFPComponents source.name fp, [], true⟩] ∧
    (SVR_getSourcesList env).2 = [⟨["Source.getSourcesList"], [], true⟩] ∧
    (∀ m ∈ (SVR_Source_sendFrame env source frame).2.2,
      m.components = setFPComponents source.name (derivedProperties frame) ∨
      m.components = ["Data", source.name]) :=
  ⟨source_new_trace env name, rfl, rfl, rfl, setEncoding_trace env source desc,
   setFrameProperties_trace env source fp, rfl, sendFrame_trace env source frame⟩

theorem C7_component_order_witness :
    (SVR_openServerSource envOk "cam" "desc").2 =
      [⟨["Source.open", "server", "cam", "desc"], [], true⟩] ∧
    ((⟨["Source.open", "client", "cam"], [], true⟩ : SentMsg).components =
        ["Source.open", "client", "cam"] ∨
     (⟨["Source.open", "client", "cam"], [], true⟩ : SentMsg).components =
        ["Source.setEncoding", "cam", "jpeg"] ∨
     (⟨["Source.open", "client", "cam"], [], true⟩ : SentMsg).components =
        ["Source.setEncoding", "cam", "raw"]) :=
  ⟨(C7_component_order envOk srcConfigured "cam" "desc" props640 frame640).2.1,
   (C7_component_order envOk srcConfigured "cam" "desc" props640 frame640).1
     ⟨["Source.open", "client", "cam"], [], true⟩
     (by exact List.mem_cons_self _ _)⟩

/-- C8: the third component of every Source.setFrameProperties message is
the string "w,h,depth,channels": it decomposes as four comma-free
substrings joined by commas which read back, as ASCII decimal integers, to
the width, height, depth and channels in that order. -/
theorem C8_frameProperties_format (env : Env) (source : SVR_Source)
    (fp : SVR_FrameProperties) :
    ∃ a b c d : String,
      (SVR_Source_setFrameProperties env source fp).2.2 =
        [⟨["Source.setFrameProperties", source.name,
           a ++ "," ++ b ++ "," ++ c ++ "," ++ d], [], true⟩] ∧
      parseDec a = some fp.width ∧ parseDec b = some fp.height ∧
      parseDec c = some fp.depth ∧ parseDec d = some fp.channels ∧
      (∀ ch ∈ a.data, ch ≠ ',') ∧ (∀ ch ∈ b.data, ch ≠ ',') ∧
      (∀ ch ∈ c.data, ch ≠ ',') ∧ (∀ ch ∈ d.data, ch ≠ ',') := by
  refine ⟨intDec fp.width, intDec fp.height, intDec fp.depth,
    intDec fp.channels, ?_, parseDec_intDec fp.width, parseDec_intDec fp.height,
    parseDec_intDec fp.depth, parseDec_intDec fp.channels,
    intDec_no_comma fp.width, intDec_no_comma fp.height,
    intDec_no_comma fp.depth, intDec_no_comma fp.channels⟩
  rw [setFrameProperties_trace env source fp]
  rfl

theorem C8_frameProperties_format_witness :
    ∃ a b c d : String,
      (SVR_Source_setFrameProperties envOk srcConfigured props640).2.2 =
        [⟨["Source.setFrameProperties", srcConfigured.name,
           a ++ "," ++ b ++ "," ++ c ++ "," ++ d], [], true⟩] ∧
      parseDec a = some props640.width ∧ parseDec b = some props640.height ∧
      parseDec c = some props640.depth ∧ parseDec d = some props640.channels ∧
      (∀ ch ∈ a.data, ch ≠ ',') ∧ (∀ ch ∈ b.data, ch ≠ ',') ∧
      (∀ ch ∈ c.data, ch ≠ ',') ∧ (∀ ch ∈ d.data, ch ≠ ',') :=
  C8_frameProperties_format envOk srcConfigured props640

/-- C10: SVR_Source_new yields no source whenever the Source.open request
is not answered Success; on success the result is the fresh source (named
as requested, no encoder, no frame properties, 4096-byte payload buffer)
after setting the encoding to "jpeg", falling back to "raw" when the jpeg
attempt fails; any returned source keeps its name, an unset encoder, unset
frame properties and the 4096-byte payload buffer size. -/
theorem C10_new_spec (env : Env) (name : String) :
    (env.request ["Source.open", "client", name] ≠ SVR_SUCCESS →
      (SVR_Source_new env name).1 = none) ∧
    (env.request ["Source.open", "client", name] = SVR_SUCCESS →
      ((SVR_Source_setEncoding env (freshSource name) "jpeg").1 = SVR_SUCCESS →
        (SVR_Source_new env name).1 =
          some (SVR_Source_setEncoding env (freshSource name) "jpeg").2.1) ∧
      ((SVR_Source_setEncoding env (freshSource name) "jpeg").1 ≠ SVR_SUCCESS →
        (SVR_Source_new env name).1 =
          some (SVR_Source_setEncoding env
            (SVR_Source_setEncoding env (freshSource name) "jpeg").2.1
            "raw").2.1)) ∧
    (∀ s, (SVR_Source_new env name).1 = some s →
      s.name = name ∧ s.encoder = none ∧ s.frame_properties = none ∧
      s.payload_buffer_size = 4 * 1024) := by
  refine ⟨?_, ?_, fun s hs => source_new_fields env name s hs⟩
  · intro hreq
    unfold SVR_Source_new
    rw [if_pos hreq]
  · intro hreq
    constructor
    · intro hjp
      unfold SVR_Source_new
      rw [if_neg (not_not_intro hreq), if_neg (not_not_intro hjp)]
    · intro hjp
      unfold SVR_Source_new
      rw [if_neg (not_not_intro hreq), if_pos hjp]

theorem C10_new_spec_witness :
    (SVR_Source_new envReqFail "cam").1 = none ∧
    (SVR_Source_new envOk "cam").1 =
      some (SVR_Source_setEncoding envOk (freshSource "cam") "jpeg").2.1 ∧
    ∀ s, (SVR_Source_new envOk "cam").1 = some s →
      s.name = "cam" ∧ s.encoder = none ∧ s.frame_properties = none ∧
      s.payload_buffer_size = 4 * 1024 :=
  ⟨(C10_new_spec envReqFail "cam").1 (by decide),
   ((C10_new_spec envOk "cam").2.1 rfl).1 rfl,
   (C10_new_spec envOk "cam").2.2⟩
